import Mathlib

/-!
Verification of the claude-copilot prompt-normalization and tool subsystems.

This file gives a shallow embedding, in Lean 4, of the parts of the
claude-copilot VS Code extension that the specification's claims are about:

* the prompt normalizer (`processSystemPrompts`, `applySystemPromptFormat`,
  `formatSystemPrompt` from `src/server.ts`),
* the tool-discovery engine (`discoverToolDefinition`,
  `tryCommonToolPatterns` from `src/server.ts`),
* the streaming retry orchestrator (`executeStreamWithRetry` /
  `processStreamChunks` from `src/server.ts`),
* the wire-adapter tool-result handlers of the two streaming channels,
* the capability registrar (`registerToolDynamically`, `registerMCPTool`
  from `src/extension.ts`),
* the catalog upsert (`addDiscoveredTool` from `src/extension.ts`), and
* the route-level error behaviour of `POST /chat/completions`.

Each definition is translated from the TypeScript source; theorems then
confirm or refute the specification's claims about these functions.
-/

namespace ClaudeCopilot

/-! ## Data model: messages and configuration -/

/-- Message roles, from the `OpenAIMessage` / `AnthropicMessage` types. -/
inductive Role where
  | system
  | user
  | assistant
  | tool
  deriving DecidableEq, Repr

/-- A message `content` value.  The source treats content as either a raw
string (the typeof test in the source) or an arbitrary JSON value that is
serialized with JSON.stringify; `other s` stands for a non-string content
value whose serialized rendering is `s`. -/
inductive MessageContent where
  | str (s : String)
  | other (serialized : String)
  deriving DecidableEq, Repr

/-- A chat message as handled by `processSystemPrompts`. -/
structure Message where
  role : Role
  content : MessageContent
  deriving DecidableEq, Repr

/-- The three system-prompt format strategies (`SystemPromptFormat`). -/
inductive SystemPromptFormat where
  | merge
  | assistant_acknowledgment
  | simple_prepend
  deriving DecidableEq, Repr

/-- The configuration fields of `Config` consumed by the normalizer and the
route handlers. -/
structure Config where
  enableSystemPromptProcessing : Bool
  systemPrompt : String
  systemPromptFormat : SystemPromptFormat
  defaultModel : String
  deriving DecidableEq, Repr

/-- Content serialization: string content is used as is, any other content
is rendered with JSON.stringify. -/
def serializeContent : MessageContent → String
  | .str s => s
  | .other j => j

/-- Whether the role of a message is the system role. -/
def isSystemRole (m : Message) : Bool :=
  match m.role with
  | .system => true
  | _ => false

/-- The defensive system-to-user coercion used in several places in
`src/server.ts`: a copy of the message whose role is rewritten to user when
it was system, the message unchanged otherwise. -/
def coerceSystemToUser (m : Message) : Message :=
  if isSystemRole m then { m with role := .user } else m

/-- The whitespace characters stripped by JS `String.prototype.trim` (the
ASCII ones; the full JS set also has exotic Unicode spaces, which no string
in this development contains). -/
def isJsWhitespace (c : Char) : Bool :=
  c = ' ' || c = '\t' || c = '\n' || c = '\r'

/-- Drop leading whitespace characters. -/
def dropWhitespaceLeft : List Char → List Char
  | [] => []
  | c :: rest => if isJsWhitespace c then dropWhitespaceLeft rest else c :: rest

/-- JS `s.trim()`: strip whitespace from both ends.  (Defined structurally
over the character list so that it evaluates inside the kernel.) -/
def jsTrim (s : String) : String :=
  String.mk ((dropWhitespaceLeft ((dropWhitespaceLeft s.data).reverse)).reverse)

/-! ## Prompt normalizer (`src/server.ts`, `processSystemPrompts` etc.) -/

/-- Function `formatSystemPrompt` from `src/server.ts`. -/
def formatSystemPrompt (systemContent userContent : String) :
    SystemPromptFormat → String
  | .merge =>
      if jsTrim userContent = "" then
        "<SYSTEM_INSTRUCTIONS>\n" ++ systemContent ++ "\n</SYSTEM_INSTRUCTIONS>"
      else
        "<SYSTEM_INSTRUCTIONS>\n" ++ systemContent ++ "\n</SYSTEM_INSTRUCTIONS>" ++
          "\n\n<USER_MESSAGE>\n" ++ userContent ++ "\n</USER_MESSAGE>"
  | .assistant_acknowledgment =>
      "<INSTRUCTIONS>\n" ++ systemContent ++ "\n</INSTRUCTIONS>"
  | .simple_prepend => systemContent

/-- The fixed acknowledgment text of the `assistant_acknowledgment` strategy. -/
def acknowledgmentText : String :=
  "I understand and will follow these instructions carefully."

/-- Function `applySystemPromptFormat` from `src/server.ts`. -/
def applySystemPromptFormat (messages : List Message) (systemContent : String)
    (format : SystemPromptFormat) : List Message :=
  match messages with
  | [] =>
      [{ role := .user, content := .str (formatSystemPrompt systemContent "" format) }]
  | firstMessage :: restMessages =>
      match format with
      | .merge =>
          let firstUserContent := serializeContent firstMessage.content
          { role := if firstMessage.role = .system then .user else firstMessage.role,
            content := .str (formatSystemPrompt systemContent firstUserContent .merge) }
            :: restMessages
      | .assistant_acknowledgment =>
          { role := .assistant, content := .str acknowledgmentText } ::
          { role := .user,
            content := .str (formatSystemPrompt systemContent "" .assistant_acknowledgment ++
              "\n\nPlease proceed with following these instructions.") } ::
          (firstMessage :: restMessages).map coerceSystemToUser
      | .simple_prepend =>
          let c := serializeContent firstMessage.content
          { role := if firstMessage.role = .system then .user else firstMessage.role,
            content := .str (systemContent ++ "\n\n" ++ c) }
            :: restMessages

/-- The system-role partition of the input (the `systemMessages` array). -/
def systemMessagesOf (messages : List Message) : List Message :=
  messages.filter (fun m => isSystemRole m)

/-- The non-system partition of the input (the `nonSystemMessages` array). -/
def nonSystemMessagesOf (messages : List Message) : List Message :=
  messages.filter (fun m => !isSystemRole m)

/-- The `allSystemContent` accumulator of `processSystemPrompts`: the trimmed
configured prompt plus `"\n\n"` (when truthy), followed by the joined
system-message contents (when any system message exists). -/
def allSystemContent (messages : List Message) (config : Config) : String :=
  let base := if jsTrim config.systemPrompt = "" then "" else jsTrim config.systemPrompt ++ "\n\n"
  if (systemMessagesOf messages).length > 0 then
    base ++ String.intercalate "\n\n"
      ((systemMessagesOf messages).map (fun m => serializeContent m.content))
  else base

/-- The `ProcessedMessages` result shape. -/
structure ProcessedMessages where
  messages : List Message
  hasSystemPrompt : Bool
  systemContent : Option String
  deriving DecidableEq, Repr

/-- Function `processSystemPrompts` from `src/server.ts`. -/
def processSystemPrompts (messages : List Message) (config : Config) :
    ProcessedMessages :=
  if config.enableSystemPromptProcessing = false then
    { messages := messages.map coerceSystemToUser, hasSystemPrompt := false,
      systemContent := none }
  else if jsTrim (allSystemContent messages config) = "" then
    { messages := messages.map coerceSystemToUser, hasSystemPrompt := false,
      systemContent := none }
  else
    { messages := applySystemPromptFormat (nonSystemMessagesOf messages)
        (jsTrim (allSystemContent messages config)) config.systemPromptFormat,
      hasSystemPrompt := true,
      systemContent := some (jsTrim (allSystemContent messages config)) }

/-! ## Tool signatures and the discovery engine (`src/server.ts`) -/

/-- A property entry of a JSON-schema `properties` map, as used by the
hand-authored pattern table (`type`, optional `description`, and for array
properties the `items` element type). -/
structure PropertySchema where
  type : String
  description : Option String
  items : Option String
  deriving DecidableEq, Repr

/-- The `parameters` JSON schema of a tool signature.  `required := none`
models a schema literal with no `required` field. -/
structure ParameterSchema where
  type : String
  properties : List (String × PropertySchema)
  required : Option (List String)
  deriving DecidableEq, Repr

/-- Type `ToolSignature` from `src/types.ts` as used by the discovery engine. -/
structure ToolSignature where
  name : String
  description : String
  parameters : ParameterSchema
  deriving DecidableEq, Repr

/-- A plain string-typed property with no description. -/
def strProp : PropertySchema := { type := "string", description := none, items := none }

/-- The `default` entry of the `commonPatterns` object literal in
`tryCommonToolPatterns`: the generic signature synthesized for unknown
names. -/
def genericFallbackSignature (toolName : String) : ToolSignature :=
  { name := toolName,
    description := "Dynamically discovered tool: " ++ toolName,
    parameters :=
      { type := "object",
        properties :=
          [("args", { type := "array", description := some "Arguments for the tool",
                      items := some "string" }),
           ("input", { type := "string", description := some "Input data for the tool",
                       items := none })],
        required := none } }

/-- The `commonPatterns` object literal of `tryCommonToolPatterns`, as an
association list.  The literal closes over `toolName` because its `default`
entry mentions it. -/
def commonPatternsTable (toolName : String) : List (String × ToolSignature) :=
  [("cat", { name := "cat", description := "Display file contents",
             parameters := { type := "object", properties := [("file", strProp)],
                             required := some ["file"] } }),
   ("ls", { name := "ls", description := "List directory contents",
            parameters := { type := "object", properties := [("path", strProp)],
                            required := none } }),
   ("cp", { name := "cp", description := "Copy files",
            parameters := { type := "object",
                            properties := [("source", strProp), ("dest", strProp)],
                            required := some ["source", "dest"] } }),
   ("mv", { name := "mv", description := "Move files",
            parameters := { type := "object",
                            properties := [("source", strProp), ("dest", strProp)],
                            required := some ["source", "dest"] } }),
   ("rm", { name := "rm", description := "Remove files",
            parameters := { type := "object", properties := [("path", strProp)],
                            required := some ["path"] } }),
   ("git", { name := "git", description := "Git version control",
             parameters := { type := "object", properties := [("command", strProp)],
                             required := some ["command"] } }),
   ("npm", { name := "npm", description := "Node package manager",
             parameters := { type := "object", properties := [("command", strProp)],
                             required := some ["command"] } }),
   ("python", { name := "python", description := "Python interpreter",
                parameters := { type := "object", properties := [("code", strProp)],
                                required := some ["code"] } }),
   ("default", genericFallbackSignature toolName)]

/-- Function `tryCommonToolPatterns` from `src/server.ts`: it returns the
property of the `commonPatterns` literal named by `toolName`, falling back
to the `default` entry of the same literal when the lookup misses. -/
def tryCommonToolPatterns (toolName : String) : Option ToolSignature :=
  match (commonPatternsTable toolName).lookup toolName with
  | some sig => some sig
  | none => some (genericFallbackSignature toolName)

/-- The CLI probe command list built by `discoverToolDefinition`. -/
def probeCommands (toolName : String) : List String :=
  ["claude-code --help " ++ toolName,
   "claude-code tools list | grep -i " ++ toolName,
   "which " ++ toolName]

/-- Function `discoverToolDefinition` from `src/server.ts`.  Strategy 1 is the pattern
table; strategy 2 (`tryCommandSequentially`, shelling out via `exec`) is an
external effect, abstracted here as a `probe` function from the command list
to the first successfully parsed signature (or `none` when every command
fails). -/
def discoverToolDefinition (toolName : String)
    (probe : List String → Option ToolSignature) : Option ToolSignature :=
  match tryCommonToolPatterns toolName with
  | some commonTool => some commonTool
  | none => probe (probeCommands toolName)

/-! ## Capability registrar (`src/extension.ts`) -/

/-- The registrar's mutable state: `registry` is the contents of the
`dummyRegistry` set (insertion order), and `registerCalls` records every
invocation of the execution environment's `vscode.lm.registerTool`
primitive, in order, whether or not it succeeded. -/
structure RegistrarState where
  registry : List String
  registerCalls : List String
  deriving DecidableEq, Repr

/-- Function `registerToolDynamically` from `src/extension.ts`.  `signatures` is the
current `claudeToolSignatures` catalog; `registerOk name` tells whether the
execution environment's `registerTool` primitive succeeds or throws for
`name`. -/
def registerToolDynamically (signatures : List ToolSignature)
    (registerOk : String → Bool) (toolName : String) (st : RegistrarState) :
    Bool × RegistrarState :=
  match signatures.find? (fun t => t.name == toolName) with
  | none => (false, st)
  | some _ =>
      if toolName ∈ st.registry then (true, st)
      else if registerOk toolName then
        (true, { registry := st.registry ++ [toolName],
                 registerCalls := st.registerCalls ++ [toolName] })
      else (false, { st with registerCalls := st.registerCalls ++ [toolName] })

/-- Function `registerMCPTool` from `src/extension.ts`.  `hasContext` models whether
`getExtensionContext()` returns a context; the installed invoke handler is
behavioural and does not affect registration state. -/
def registerMCPTool (hasContext : Bool) (registerOk : String → Bool)
    (toolName : String) (st : RegistrarState) : Bool × RegistrarState :=
  if hasContext = false then (false, st)
  else if toolName ∈ st.registry then (true, st)
  else if registerOk toolName then
    (true, { registry := st.registry ++ [toolName],
             registerCalls := st.registerCalls ++ [toolName] })
  else (false, { st with registerCalls := st.registerCalls ++ [toolName] })

/-! ## Tool catalog upsert (`src/extension.ts`, `addDiscoveredTool`) -/

/-- A tool signature as it exists at runtime in the `claudeToolSignatures`
array: the dynamic-update path is untyped (`@ts-ignore`), so the `name`
property may be absent (`name := none` models a JS object without `name`).
JS compares `t.name === toolSignature.name` with `undefined === undefined`
being true, which `Option.none == Option.none` mirrors. -/
structure RawToolSignature where
  name : Option String
  description : String
  parameters : ParameterSchema
  deriving DecidableEq, Repr

/-- Function `addDiscoveredTool` from `src/extension.ts`.  The argument `none` models
a `null`/`undefined` argument: reading `toolSignature.name` throws, the
`catch` logs and returns `false`, leaving the array untouched.  For an
object argument, `findIndex` locates the first entry with the same `name`
property; a hit is overwritten in place, otherwise the signature is pushed,
and `true` is returned in both cases. -/
def addDiscoveredTool (catalog : List RawToolSignature) :
    Option RawToolSignature → Bool × List RawToolSignature
  | none => (false, catalog)
  | some sig =>
      match catalog.findIdx? (fun t => t.name == sig.name) with
      | some i => (true, catalog.set i sig)
      | none => (true, catalog ++ [sig])

/-! ## Streams, the discovery sentinel, and the retry orchestrator
(`src/server.ts`) -/

/-- A part of the model's response stream (`LanguageModelTextPart` or
`LanguageModelToolCallPart`). -/
inductive StreamChunk where
  | text (s : String)
  | toolCall (callId name input : String)
  deriving DecidableEq, Repr

/-- The sentinel phrase checked by `executeStreamWithRetry` and by the
OpenAI streaming tool-result handler. -/
def discoverySentinel : String := "dynamically discovered and registered"

/-- Whether `needle` occurs as a contiguous run inside `haystack`. -/
def charsContain (needle : List Char) : List Char → Bool
  | [] => needle.isEmpty
  | c :: rest => needle.isPrefixOf (c :: rest) || charsContain needle rest

/-- Whether the sentinel phrase occurs in `s`, as tested with the JS
includes method on strings. -/
def containsSentinel (s : String) : Bool :=
  charsContain discoverySentinel.toList s.toList

/-- An event forwarded to the caller-supplied sink callbacks (`onText`,
`onToolCall`, `onToolResult`) of `createRetryableStreamProcessor`. -/
inductive StreamEvent where
  | text (s : String)
  | toolCall (callId name input : String)
  | toolResult (callId name result : String)
  deriving DecidableEq, Repr

/-- The orchestrator's observable state for one logical turn: the shared
`retryCount` of the `RetryContext`, the number of `model.sendRequest`
dispatches performed so far, and the trace of events forwarded to the
caller's sink. -/
structure OrchestratorState where
  retryCount : Nat
  dispatches : Nat
  events : List StreamEvent
  deriving DecidableEq, Repr

/-- Append one forwarded event to the sink trace. -/
def pushEvent (st : OrchestratorState) (e : StreamEvent) : OrchestratorState :=
  { st with events := st.events ++ [e] }

/-- The `processStreamChunks` loop running under the `retryableOnToolResult`
wrapper of `executeStreamWithRetry`.  Text parts are forwarded; a tool-call
part is forwarded and the tool invoked (`invokeTool name input` is the
result text that reaches the result handler — on the invoke-failure path
this is the synthetic discovery message or the error text).  A result
containing the sentinel while `retryCount < maxRetries` increments
`retryCount` and re-dispatches the whole turn (`retryDispatch`) instead of
forwarding the result; afterwards the loop continues with the remaining
chunks of the current stream, exactly as the `for await` loop in the source
resumes after `onToolResult` returns. -/
def processChunksWith (retryDispatch : OrchestratorState → OrchestratorState)
    (maxRetries : Nat) (invokeTool : String → String → String) :
    List StreamChunk → OrchestratorState → OrchestratorState
  | [], st => st
  | .text s :: rest, st =>
      processChunksWith retryDispatch maxRetries invokeTool rest
        (pushEvent st (.text s))
  | .toolCall callId name input :: rest, st =>
      let st1 := pushEvent st (.toolCall callId name input)
      let result := invokeTool name input
      let st2 :=
        if containsSentinel result = true ∧ st1.retryCount < maxRetries then
          retryDispatch { st1 with retryCount := st1.retryCount + 1 }
        else pushEvent st1 (.toolResult callId name result)
      processChunksWith retryDispatch maxRetries invokeTool rest st2

/-- One (re-)dispatch of `executeStreamWithRetry`: send the same request
(`respond k` is the stream the model returns for the `k`-th dispatch,
0-based) and consume it.  The recursion of the source terminates because
every re-dispatch increments the shared `retryCount`, which the guard
bounds by `maxRetries`; `fuel` makes that termination measure explicit, and
the `fuel = 0` branch is unreachable from the initial fuel chosen in
`executeStreamWithRetry`. -/
def dispatchTurn (maxRetries : Nat) (respond : Nat → List StreamChunk)
    (invokeTool : String → String → String) : Nat → OrchestratorState → OrchestratorState
  | 0, st => st
  | fuel + 1, st =>
      processChunksWith (dispatchTurn maxRetries respond invokeTool fuel)
        maxRetries invokeTool (respond st.dispatches)
        { st with dispatches := st.dispatches + 1 }

/-- Function `executeStreamWithRetry` as entered through
`createRetryableStreamProcessor`: a fresh
`RetryContext` with `retryCount = 0`, then the first dispatch. -/
def executeStreamWithRetry (maxRetries : Nat) (respond : Nat → List StreamChunk)
    (invokeTool : String → String → String) : OrchestratorState :=
  dispatchTurn maxRetries respond invokeTool (maxRetries + 1)
    { retryCount := 0, dispatches := 0, events := [] }

/-! ## Wire adapters: streaming tool-result handlers -/

/-- The `delta.tool_results[0]` frame of the OpenAI streaming channel. -/
structure OpenAIToolResultDelta where
  id : String
  name : String
  result : String
  deriving DecidableEq, Repr

/-- The `tool_response` `content_block_delta` of the Anthropic streaming
channel. -/
structure AnthropicToolResponseDelta where
  type : String
  id : String
  name : String
  output : String
  deriving DecidableEq, Repr

/-- The `onToolResult` sink of the OpenAI streaming route
(`POST /chat/completions`): it concatenates the result's text parts and
writes one `tool_results` frame unless the text contains the discovery
sentinel, in which case nothing is written.  The returned list is the list
of frames written. -/
def openaiOnToolResultWrites (callId toolName : String) (parts : List String) :
    List OpenAIToolResultDelta :=
  let resultText := String.join parts
  if containsSentinel resultText then []
  else [{ id := callId, name := toolName, result := resultText }]

/-- The `onToolResult` sink of the Anthropic streaming route
(`POST /v1/messages`): it unconditionally writes one `tool_response`
content-block delta carrying the concatenated result text. -/
def anthropicOnToolResultWrites (callId toolName : String) (parts : List String) :
    List AnthropicToolResponseDelta :=
  [{ type := "tool_response", id := callId, name := toolName,
     output := String.join parts }]

/-! ## Non-streaming branches of the two routes -/

/-- The accumulation loop of the non-streaming branches: text parts are
pushed onto `result`, tool-call parts are only logged (no tool is invoked
and nothing is accumulated for them). -/
def collectTextParts : List StreamChunk → List String
  | [] => []
  | .text s :: rest => s :: collectTextParts rest
  | .toolCall _ _ _ :: rest => collectTextParts rest

/-- The content-bearing fields of the non-streaming OpenAI response body. -/
structure OpenAICompletion where
  model : String
  role : String
  content : String
  finish_reason : String
  deriving DecidableEq, Repr

/-- The non-streaming branch of `POST /chat/completions`. -/
def openaiNonStreaming (modelId : String) (chunks : List StreamChunk) :
    OpenAICompletion :=
  { model := modelId, role := "assistant",
    content := String.join (collectTextParts chunks),
    finish_reason := "stop" }

/-- The content-bearing fields of the non-streaming Anthropic response body. -/
structure AnthropicCompletion where
  model : String
  role : String
  text : String
  stop_reason : String
  deriving DecidableEq, Repr

/-- The non-streaming branch of `POST /v1/messages`. -/
def anthropicNonStreaming (modelId : String) (chunks : List StreamChunk) :
    AnthropicCompletion :=
  { model := modelId, role := "assistant",
    text := String.join (collectTextParts chunks),
    stop_reason := "end_turn" }

/-- The text carried by a chunk, when it is a text part. -/
def chunkText : StreamChunk → Option String
  | .text s => some s
  | .toolCall _ _ _ => none

/-- Whether a chunk is a text part. -/
def isTextChunk : StreamChunk → Bool
  | .text _ => true
  | .toolCall _ _ _ => false

/-! ## Route-level error behaviour of `POST /chat/completions` -/

/-- The `{"error":{"type","message"}}` body built by `createErrorResponse`. -/
structure ErrorBody where
  type : String
  message : String
  deriving DecidableEq, Repr

/-- Function `createErrorResponse` from `src/server.ts`: the status-code parameter
is declared but unused (it does not influence the HTTP status, which each
call site passes to `c.json` separately). -/
def createErrorResponse (message : String) (statusCode : Nat) (type : String) :
    ErrorBody :=
  let _ := statusCode
  { type := type, message := message }

/-- The decoded request body as the route sees it: `malformed` stands for a
body on which `c.req.json()` throws (not valid JSON); otherwise the fields
the handler reads.  `messages := none` models a JSON body without a
`messages` array. -/
inductive RequestBody where
  | malformed
  | parsed (model : String) (messages : Option (List Message)) (stream : Bool)
  deriving DecidableEq, Repr

/-- Function `findModelWithFallback` from `src/server.ts`, over the set of model ids
`vscode.lm.selectChatModels` can return: the requested id if available,
else the configured default id, else `none`. -/
def findModelWithFallback (available : List String)
    (requestedModel defaultModel : String) : Option String :=
  if available.contains requestedModel then some requestedModel
  else if available.contains defaultModel then some defaultModel
  else none

/-- The observable outcome of a route handler: a success response or an
error status with a JSON error body. -/
inductive RouteResponse where
  | ok (status : Nat)
  | error (status : Nat) (body : ErrorBody)
  deriving DecidableEq, Repr

/-- The `POST /chat/completions` handler of `newHonoServer`, at the
granularity of its error behaviour.  A malformed body makes
the JSON decoding step throw, which the catch of the route turns into a
500 response with the generic internal-error body.  With a parsed
body, tool extraction and registration cannot throw on a missing `messages`
field (both accesses are guarded); the model lookup happens next and a
double miss returns status 400; only then does
`processSystemPrompts(body.messages, config)` run, which throws a
`TypeError` (`messages.forEach` of `undefined`) when `messages` is absent —
again caught and turned into the generic 500. -/
def postChatCompletions (body : RequestBody) (available : List String)
    (config : Config) : RouteResponse :=
  match body with
  | .malformed =>
      .error 500 (createErrorResponse "Internal server error" 500 "internal_error")
  | .parsed model messages _ =>
      match findModelWithFallback available model config.defaultModel with
      | none =>
          .error 400 (createErrorResponse
            ("model not found: " ++ model ++ " and default model " ++
              config.defaultModel ++ " not available") 500 "internal_error")
      | some _ =>
          match messages with
          | none =>
              .error 500 (createErrorResponse "Internal server error" 500 "internal_error")
          | some _ => .ok 200

/-! ### Lemmas about the normalizer -/

theorem coerceSystemToUser_not_system (m : Message) :
    isSystemRole (coerceSystemToUser m) = false := by
  cases m with
  | mk role content =>
      cases role <;> simp [coerceSystemToUser, isSystemRole]

theorem mem_nonSystemMessagesOf_not_system {m : Message} {messages : List Message}
    (h : m ∈ nonSystemMessagesOf messages) : isSystemRole m = false := by
  have h' := List.of_mem_filter h
  simpa using h'

theorem isSystemRole_mk_of_ne (r : Role) (c : MessageContent)
    (h : r ≠ Role.system) : isSystemRole { role := r, content := c } = false := by
  cases r <;> simp_all [isSystemRole]

theorem applySystemPromptFormat_no_system (messages : List Message)
    (systemContent : String) (format : SystemPromptFormat)
    (h : ∀ m ∈ messages, isSystemRole m = false) :
    ((applySystemPromptFormat messages systemContent format).all
      fun m => !isSystemRole m) = true := by
  cases messages with
  | nil => cases format <;> simp [applySystemPromptFormat, isSystemRole]
  | cons firstMessage restMessages =>
      have hfirst : isSystemRole firstMessage = false := h firstMessage (by simp)
      have hrest : ∀ m ∈ restMessages, isSystemRole m = false := by
        intro m hm
        exact h m (by simp [hm])
      have hfirstRole : firstMessage.role ≠ Role.system := by
        intro hcontra
        rw [isSystemRole, hcontra] at hfirst
        simp at hfirst
      cases format with
      | merge =>
          simp only [applySystemPromptFormat, List.all_cons, Bool.and_eq_true,
            if_neg hfirstRole]
          refine ⟨?_, ?_⟩
          · simp [isSystemRole_mk_of_ne _ _ hfirstRole]
          · simp only [List.all_eq_true]
            intro m hm
            simp [hrest m hm]
      | assistant_acknowledgment =>
          simp only [applySystemPromptFormat, List.all_cons, Bool.and_eq_true]
          refine ⟨by simp [isSystemRole], by simp [isSystemRole], ?_⟩
          simp only [List.all_eq_true]
          intro m hm
          rcases List.mem_map.mp hm with ⟨m', _, rfl⟩
          simp [coerceSystemToUser_not_system]
      | simple_prepend =>
          simp only [applySystemPromptFormat, List.all_cons, Bool.and_eq_true,
            if_neg hfirstRole]
          refine ⟨?_, ?_⟩
          · simp [isSystemRole_mk_of_ne _ _ hfirstRole]
          · simp only [List.all_eq_true]
            intro m hm
            simp [hrest m hm]

theorem map_coerce_no_system (messages : List Message) :
    ((messages.map coerceSystemToUser).all fun m => !isSystemRole m) = true := by
  simp only [List.all_eq_true]
  intro m hm
  rcases List.mem_map.mp hm with ⟨m', _, rfl⟩
  simp [coerceSystemToUser_not_system]

/-- C2: for every input message sequence and every configuration (hence for
each of the three format strategies), the message sequence returned by
`processSystemPrompts` contains zero messages whose role is `system`. -/
theorem c2_normalizer_eliminates_system_roles (messages : List Message)
    (config : Config) :
    ((processSystemPrompts messages config).messages.all
      fun m => !isSystemRole m) = true := by
  unfold processSystemPrompts
  by_cases h1 : config.enableSystemPromptProcessing = false
  · rw [if_pos h1]
    exact map_coerce_no_system messages
  · rw [if_neg h1]
    by_cases h2 : jsTrim (allSystemContent messages config) = ""
    · rw [if_pos h2]
      exact map_coerce_no_system messages
    · rw [if_neg h2]
      exact applySystemPromptFormat_no_system _ _ _
        (fun m hm => mem_nonSystemMessagesOf_not_system hm)

theorem coerce_eq_of_not_system (m : Message) (h : isSystemRole m = false) :
    coerceSystemToUser m = m := by
  simp [coerceSystemToUser, h]

theorem map_coerce_nonSystem (messages : List Message) :
    (nonSystemMessagesOf messages).map coerceSystemToUser =
      nonSystemMessagesOf messages := by
  have h : ∀ m ∈ nonSystemMessagesOf messages, coerceSystemToUser m = id m :=
    fun m hm => coerce_eq_of_not_system m (mem_nonSystemMessagesOf_not_system hm)
  rw [List.map_congr_left h, List.map_id]

/-- C5 (counterexample): a single-message input whose only message has role
`system` (with `assistant_acknowledgment` format and non-empty combined
system content) is normalized to exactly one message, not `1 + 2` — system
messages are partitioned out before the format strategy runs, and with no
non-system messages left the strategy emits a single synthetic user
message. -/
theorem c5_counterexample :
    (processSystemPrompts [{ role := Role.system, content := MessageContent.str "x" }]
        { enableSystemPromptProcessing := true, systemPrompt := "",
          systemPromptFormat := SystemPromptFormat.assistant_acknowledgment,
          defaultModel := "gpt-4" }).messages.length = 1 ∧
    ¬ (processSystemPrompts [{ role := Role.system, content := MessageContent.str "x" }]
        { enableSystemPromptProcessing := true, systemPrompt := "",
          systemPromptFormat := SystemPromptFormat.assistant_acknowledgment,
          defaultModel := "gpt-4" }).messages.length = 1 + 2 := by
  refine ⟨?_, ?_⟩ <;> decide

/-- C5 (amended): for an input of `n` messages of which `s` have role
`system`, normalized with `assistant_acknowledgment` and non-empty combined
system content, if at least one non-system message exists then the output
is exactly: the synthetic assistant acknowledgment, a synthetic user
instruction message, then the `n - s` non-system original messages
unchanged — in particular the output length is `(n - s) + 2`. -/
theorem c5_ack_message_count (messages : List Message) (config : Config)
    (h1 : config.enableSystemPromptProcessing = true)
    (h2 : config.systemPromptFormat = SystemPromptFormat.assistant_acknowledgment)
    (h3 : jsTrim (allSystemContent messages config) ≠ "")
    (h4 : nonSystemMessagesOf messages ≠ []) :
    (processSystemPrompts messages config).messages =
      { role := Role.assistant, content := MessageContent.str acknowledgmentText } ::
      { role := Role.user,
        content := MessageContent.str
          (formatSystemPrompt (jsTrim (allSystemContent messages config)) ""
            SystemPromptFormat.assistant_acknowledgment ++
            "\n\nPlease proceed with following these instructions.") } ::
      nonSystemMessagesOf messages ∧
    (processSystemPrompts messages config).messages.length =
      (nonSystemMessagesOf messages).length + 2 := by
  have henable : ¬ config.enableSystemPromptProcessing = false := by simp [h1]
  obtain ⟨first, rest, hcons⟩ := List.exists_cons_of_ne_nil h4
  have hmain : (processSystemPrompts messages config).messages =
      { role := Role.assistant, content := MessageContent.str acknowledgmentText } ::
      { role := Role.user,
        content := MessageContent.str
          (formatSystemPrompt (jsTrim (allSystemContent messages config)) ""
            SystemPromptFormat.assistant_acknowledgment ++
            "\n\nPlease proceed with following these instructions.") } ::
      nonSystemMessagesOf messages := by
    unfold processSystemPrompts
    rw [if_neg henable, if_neg h3, h2, hcons]
    simp only [applySystemPromptFormat]
    rw [← hcons, map_coerce_nonSystem]
  refine ⟨hmain, ?_⟩
  rw [hmain]
  simp only [List.length_cons]

/-- C1 (divergence evidence): a request body that is not valid JSON, and a
JSON body without a `messages` array, are both answered by the route's
generic `catch` with HTTP 500 and `error.type = "internal_error"` — not
with the HTTP 400 the specification and the repository's API tests
promise. -/
theorem c1_malformed_body_gets_500_not_400 :
    postChatCompletions RequestBody.malformed ["gpt-4"]
        { enableSystemPromptProcessing := true, systemPrompt := "",
          systemPromptFormat := SystemPromptFormat.merge, defaultModel := "gpt-4" } =
      RouteResponse.error 500 { type := "internal_error", message := "Internal server error" } ∧
    postChatCompletions (RequestBody.parsed "gpt-4" none false) ["gpt-4"]
        { enableSystemPromptProcessing := true, systemPrompt := "",
          systemPromptFormat := SystemPromptFormat.merge, defaultModel := "gpt-4" } =
      RouteResponse.error 500 { type := "internal_error", message := "Internal server error" } := by
  refine ⟨rfl, ?_⟩
  decide

theorem collectTextParts_eq_filterMap (chunks : List StreamChunk) :
    collectTextParts chunks = chunks.filterMap chunkText := by
  induction chunks with
  | nil => rfl
  | cons c rest ih =>
      cases c <;> simp [collectTextParts, chunkText, List.filterMap_cons, ih]

theorem collectTextParts_filter_text (chunks : List StreamChunk) :
    collectTextParts (chunks.filter isTextChunk) = collectTextParts chunks := by
  induction chunks with
  | nil => rfl
  | cons c rest ih =>
      cases c <;> simp [collectTextParts, isTextChunk, List.filter_cons, ih]

/-- C10: in the non-streaming branches of both routes, tool-call parts of
the model's stream are discarded (the response is the same as for the
stream with every tool-call part removed, and no tool invocation occurs in
this branch), the response content is exactly the concatenation of the
text parts, and the finish reason is the constant `"stop"` (OpenAI) /
`"end_turn"` (Anthropic). -/
theorem c10_nonstreaming_discards_tool_calls (modelId : String)
    (chunks : List StreamChunk) :
    (openaiNonStreaming modelId chunks).content =
      String.join (chunks.filterMap chunkText) ∧
    (openaiNonStreaming modelId chunks).finish_reason = "stop" ∧
    (anthropicNonStreaming modelId chunks).text =
      String.join (chunks.filterMap chunkText) ∧
    (anthropicNonStreaming modelId chunks).stop_reason = "end_turn" ∧
    openaiNonStreaming modelId (chunks.filter isTextChunk) =
      openaiNonStreaming modelId chunks ∧
    anthropicNonStreaming modelId (chunks.filter isTextChunk) =
      anthropicNonStreaming modelId chunks := by
  refine ⟨?_, rfl, ?_, rfl, ?_, ?_⟩
  · simp [openaiNonStreaming, collectTextParts_eq_filterMap]
  · simp [anthropicNonStreaming, collectTextParts_eq_filterMap]
  · simp [openaiNonStreaming, collectTextParts_filter_text]
  · simp [anthropicNonStreaming, collectTextParts_filter_text]

/-- C4: a tool result whose concatenated text contains the discovery
sentinel produces no `tool_results` frame on the OpenAI streaming channel,
while the Anthropic streaming channel writes a `tool_response`
content-block delta carrying that very text. -/
theorem c4_sentinel_channel_asymmetry (callId toolName : String)
    (parts : List String)
    (h : containsSentinel (String.join parts) = true) :
    openaiOnToolResultWrites callId toolName parts = [] ∧
    anthropicOnToolResultWrites callId toolName parts =
      [{ type := "tool_response", id := callId, name := toolName,
         output := String.join parts }] := by
  constructor
  · simp [openaiOnToolResultWrites, h]
  · rfl

theorem c4_sentinel_channel_asymmetry_witness :
    openaiOnToolResultWrites "call_1" "mytool"
        ["Tool mytool was dynamically discovered and registered. Please retry your request."] = [] ∧
    anthropicOnToolResultWrites "call_1" "mytool"
        ["Tool mytool was dynamically discovered and registered. Please retry your request."] =
      [{ type := "tool_response", id := "call_1", name := "mytool",
         output := String.join
           ["Tool mytool was dynamically discovered and registered. Please retry your request."] }] :=
  c4_sentinel_channel_asymmetry "call_1" "mytool"
    ["Tool mytool was dynamically discovered and registered. Please retry your request."]
    (by decide)

/-- C6 (counterexample): for the name `"zzz_custom"`, which is not one of
the fixed common tool names, the pattern-table step itself already returns
the generic fallback signature (the table's `default` entry), so the
external probe sequence is never attempted: even a probe that would return
a different signature is ignored. -/
theorem c6_counterexample :
    discoverToolDefinition "zzz_custom"
        (fun _ => some { name := "zzz_custom", description := "FROM PROBE",
                         parameters := { type := "object", properties := [],
                                         required := none } }) =
      some (genericFallbackSignature "zzz_custom") ∧
    genericFallbackSignature "zzz_custom" ≠
      { name := "zzz_custom", description := "FROM PROBE",
        parameters := { type := "object", properties := [], required := none } } := by
  refine ⟨?_, ?_⟩ <;> decide

/-- C6 (amended): the pattern-table lookup yields a hand-authored signature
only on an exact name match, but for every other name the same step already
yields the generic fallback (the table's `default` entry), so
`tryCommonToolPatterns` always succeeds and `discoverToolDefinition` never
attempts the external probe sequence: its result is independent of the
probe environment. -/
theorem c6_pattern_table_short_circuits_probes (toolName : String)
    (probe1 probe2 : List String → Option ToolSignature) :
    (tryCommonToolPatterns toolName).isSome = true ∧
    discoverToolDefinition toolName probe1 = discoverToolDefinition toolName probe2 ∧
    ((commonPatternsTable toolName).lookup toolName = none →
      tryCommonToolPatterns toolName = some (genericFallbackSignature toolName)) := by
  unfold discoverToolDefinition tryCommonToolPatterns
  cases h : (commonPatternsTable toolName).lookup toolName <;> simp [h]

theorem c6_pattern_table_short_circuits_probes_witness :
    tryCommonToolPatterns "zzz_custom" =
      some (genericFallbackSignature "zzz_custom") :=
  (c6_pattern_table_short_circuits_probes "zzz_custom"
    (fun _ => none) (fun _ => none)).2.2 (by decide)

/-- C7: `discoverToolDefinition` returns a signature for every tool-name
string and every probe environment — the pattern table's generic `default`
entry guarantees strategy 1 always produces one. -/
theorem c7_discovery_always_succeeds (toolName : String)
    (probe : List String → Option ToolSignature) :
    (discoverToolDefinition toolName probe).isSome = true := by
  unfold discoverToolDefinition tryCommonToolPatterns
  cases h : (commonPatternsTable toolName).lookup toolName <;> simp [h]

theorem c5_ack_message_count_witness :
    (processSystemPrompts [{ role := Role.user, content := MessageContent.str "Hi" }]
        { enableSystemPromptProcessing := true, systemPrompt := "You are helpful.",
          systemPromptFormat := SystemPromptFormat.assistant_acknowledgment,
          defaultModel := "gpt-4" }).messages.length =
      (nonSystemMessagesOf
        [{ role := Role.user, content := MessageContent.str "Hi" }]).length + 2 :=
  (c5_ack_message_count
    [{ role := Role.user, content := MessageContent.str "Hi" }]
    { enableSystemPromptProcessing := true, systemPrompt := "You are helpful.",
      systemPromptFormat := SystemPromptFormat.assistant_acknowledgment,
      defaultModel := "gpt-4" }
    rfl rfl (by decide) (by decide)).2

/-- The `Bash` entry of the built-in `claudeToolSignatures` table, used as a
concrete registration example. -/
def bashSignature : ToolSignature :=
  { name := "Bash",
    description := "Executes a given bash command",
    parameters := { type := "object", properties := [("command", strProp)],
                    required := some ["command"] } }

/-- C8: after a successful registration of a name, registering the same name
again returns `true` and leaves the registrar state — including the record
of `vscode.lm.registerTool` invocations — completely unchanged, for both the
Claude-tool path (`registerToolDynamically`) and the MCP path
(`registerMCPTool`): a name enters the registration set at most once and
re-registration is an idempotent no-op reporting success. -/
theorem c8_registration_idempotent (signatures : List ToolSignature)
    (registerOk : String → Bool) (toolName : String) (hasContext : Bool)
    (st : RegistrarState) :
    ((registerToolDynamically signatures registerOk toolName st).1 = true →
      registerToolDynamically signatures registerOk toolName
          (registerToolDynamically signatures registerOk toolName st).2 =
        (true, (registerToolDynamically signatures registerOk toolName st).2)) ∧
    ((registerMCPTool hasContext registerOk toolName st).1 = true →
      registerMCPTool hasContext registerOk toolName
          (registerMCPTool hasContext registerOk toolName st).2 =
        (true, (registerMCPTool hasContext registerOk toolName st).2)) := by
  constructor
  · intro hfst
    cases hfind : signatures.find? (fun t => t.name == toolName) with
    | none => simp [registerToolDynamically, hfind] at hfst
    | some sig =>
        by_cases hmem : toolName ∈ st.registry
        · simp [registerToolDynamically, hfind, hmem]
        · by_cases hok : registerOk toolName = true
          · simp [registerToolDynamically, hfind, hmem, hok]
          · simp [registerToolDynamically, hfind, hmem, hok] at hfst
  · intro hfst
    cases hasContext with
    | false => simp [registerMCPTool] at hfst
    | true =>
        by_cases hmem : toolName ∈ st.registry
        · simp [registerMCPTool, hmem]
        · by_cases hok : registerOk toolName = true
          · simp [registerMCPTool, hmem, hok]
          · simp [registerMCPTool, hmem, hok] at hfst

theorem c8_registration_idempotent_witness :
    registerToolDynamically [bashSignature] (fun _ => true) "Bash"
        (registerToolDynamically [bashSignature] (fun _ => true) "Bash"
          { registry := [], registerCalls := [] }).2 =
      (true, (registerToolDynamically [bashSignature] (fun _ => true) "Bash"
        { registry := [], registerCalls := [] }).2) ∧
    registerMCPTool true (fun _ => true) "srv:lookup"
        (registerMCPTool true (fun _ => true) "srv:lookup"
          { registry := [], registerCalls := [] }).2 =
      (true, (registerMCPTool true (fun _ => true) "srv:lookup"
        { registry := [], registerCalls := [] }).2) :=
  ⟨(c8_registration_idempotent [bashSignature] (fun _ => true) "Bash" true
      { registry := [], registerCalls := [] }).1 (by decide),
   (c8_registration_idempotent [] (fun _ => true) "srv:lookup" true
      { registry := [], registerCalls := [] }).2 (by decide)⟩

/-- C9 (counterexample): a signature object that is merely missing its
`name` does not make `addDiscoveredTool` fail — `findIndex` finds no entry
whose `name` equals `undefined`, the nameless signature is appended, and
`true` is returned, contradicting the claim that a malformed (missing-name)
signature returns failure. -/
theorem c9_counterexample :
    addDiscoveredTool []
        (some { name := none, description := "no name here",
                parameters := { type := "object", properties := [], required := none } }) =
      (true,
        [{ name := none, description := "no name here",
           parameters := { type := "object", properties := [], required := none } }]) := by
  decide

/-- C9 (amended): `addDiscoveredTool` replaces the first existing same-named
entry in place (same position, same length, all other entries untouched) or
appends a new entry otherwise, and never throws; it returns failure exactly
when the argument is `null`/`undefined` — a well-formed signature always
returns success, and so does a signature that is merely missing its `name`
(which is appended as a nameless entry rather than rejected). -/
theorem c9_upsert_in_place_or_append (catalog : List RawToolSignature)
    (sig : RawToolSignature) :
    addDiscoveredTool catalog none = (false, catalog) ∧
    (addDiscoveredTool catalog (some sig)).1 = true ∧
    (catalog.findIdx? (fun t => t.name == sig.name) = none →
      (addDiscoveredTool catalog (some sig)).2 = catalog ++ [sig]) ∧
    (∀ i, catalog.findIdx? (fun t => t.name == sig.name) = some i →
      (addDiscoveredTool catalog (some sig)).2.length = catalog.length ∧
      (addDiscoveredTool catalog (some sig)).2[i]? = some sig ∧
      ∀ j, j ≠ i → (addDiscoveredTool catalog (some sig)).2[j]? = catalog[j]?) := by
  refine ⟨rfl, ?_, ?_, ?_⟩
  · cases h : catalog.findIdx? (fun t => t.name == sig.name) with
    | none => simp [addDiscoveredTool, h]
    | some i => simp [addDiscoveredTool, h]
  · intro h
    simp [addDiscoveredTool, h]
  · intro i h
    have hi : i < catalog.length := by
      have := List.findIdx?_eq_some_iff_findIdx_eq.mp h
      exact this.1
    refine ⟨by simp [addDiscoveredTool, h], ?_, ?_⟩
    · simp [addDiscoveredTool, h, List.getElem?_set_eq_of_lt _ hi]
    · intro j hj
      simp [addDiscoveredTool, h, List.getElem?_set_ne (Ne.symm hj)]

theorem c9_upsert_witness :
    (addDiscoveredTool
        [{ name := some "mytool", description := "old",
           parameters := { type := "object", properties := [], required := none } }]
        (some { name := some "mytool", description := "new",
                parameters := { type := "object", properties := [], required := none } })).2[0]? =
      some { name := some "mytool", description := "new",
             parameters := { type := "object", properties := [], required := none } } ∧
    (addDiscoveredTool []
        (some { name := some "othertool", description := "fresh",
                parameters := { type := "object", properties := [], required := none } })).2 =
      [{ name := some "othertool", description := "fresh",
         parameters := { type := "object", properties := [], required := none } }] :=
  ⟨((c9_upsert_in_place_or_append
      [{ name := some "mytool", description := "old",
         parameters := { type := "object", properties := [], required := none } }]
      { name := some "mytool", description := "new",
        parameters := { type := "object", properties := [], required := none } }).2.2.2
      0 (by decide)).2.1,
   (c9_upsert_in_place_or_append []
      { name := some "othertool", description := "fresh",
        parameters := { type := "object", properties := [], required := none } }).2.2.1
      (by decide)⟩

@[simp] theorem pushEvent_retryCount (st : OrchestratorState) (e : StreamEvent) :
    (pushEvent st e).retryCount = st.retryCount := rfl

@[simp] theorem pushEvent_dispatches (st : OrchestratorState) (e : StreamEvent) :
    (pushEvent st e).dispatches = st.dispatches := rfl

/-- Invariants of one pass of the chunk-consumption loop, parametric in the
re-dispatch continuation: the shared retry counter never decreases, it stays
below the retry budget, and the number of dispatches the pass performs is at
most the number of retry-counter increments it performs. -/
theorem processChunksWith_bound (rd : OrchestratorState → OrchestratorState)
    (maxRetries : Nat) (invokeTool : String → String → String)
    (hmono : ∀ st, st.retryCount ≤ (rd st).retryCount)
    (hmax : ∀ st, st.retryCount ≤ maxRetries → (rd st).retryCount ≤ maxRetries)
    (hdisp : ∀ st, (rd st).dispatches + st.retryCount ≤
      st.dispatches + (rd st).retryCount + 1) :
    ∀ (chunks : List StreamChunk) (st : OrchestratorState),
      st.retryCount ≤ (processChunksWith rd maxRetries invokeTool chunks st).retryCount ∧
      (st.retryCount ≤ maxRetries →
        (processChunksWith rd maxRetries invokeTool chunks st).retryCount ≤ maxRetries) ∧
      (processChunksWith rd maxRetries invokeTool chunks st).dispatches + st.retryCount ≤
        st.dispatches + (processChunksWith rd maxRetries invokeTool chunks st).retryCount := by
  intro chunks
  induction chunks with
  | nil =>
      intro st
      refine ⟨Nat.le_refl _, fun h => h, ?_⟩
      simp [processChunksWith]
  | cons c rest ih =>
      intro st
      cases c with
      | text s =>
          have h := ih (pushEvent st (.text s))
          simpa [processChunksWith] using h
      | toolCall callId name input =>
          by_cases hguard : containsSentinel (invokeTool name input) = true ∧
              (pushEvent st (StreamEvent.toolCall callId name input)).retryCount < maxRetries
          · have hred : processChunksWith rd maxRetries invokeTool
                (StreamChunk.toolCall callId name input :: rest) st =
                processChunksWith rd maxRetries invokeTool rest
                  (rd { retryCount := st.retryCount + 1, dispatches := st.dispatches,
                        events := st.events ++ [StreamEvent.toolCall callId name input] }) := by
              simp only [processChunksWith]
              rw [if_pos hguard]
              rfl
            rw [hred]
            obtain ⟨ih1, ih2, ih3⟩ :=
              ih (rd { retryCount := st.retryCount + 1,
                       dispatches := st.dispatches,
                       events := st.events ++ [StreamEvent.toolCall callId name input] })
            have hm1 :=
              hmono { retryCount := st.retryCount + 1,
                      dispatches := st.dispatches,
                      events := st.events ++ [StreamEvent.toolCall callId name input] }
            have hm3 :=
              hdisp { retryCount := st.retryCount + 1,
                      dispatches := st.dispatches,
                      events := st.events ++ [StreamEvent.toolCall callId name input] }
            have hlt : st.retryCount < maxRetries := by
              have h2 := hguard.2
              simpa using h2
            have hm2 :=
              hmax { retryCount := st.retryCount + 1,
                     dispatches := st.dispatches,
                     events := st.events ++ [StreamEvent.toolCall callId name input] }
                (by simpa using hlt)
            simp only at hm1 hm3 hm2
            refine ⟨by omega, fun _ => by omega, by omega⟩
          · have hred : processChunksWith rd maxRetries invokeTool
                (StreamChunk.toolCall callId name input :: rest) st =
                processChunksWith rd maxRetries invokeTool rest
                  (pushEvent (pushEvent st (StreamEvent.toolCall callId name input))
                    (StreamEvent.toolResult callId name (invokeTool name input))) := by
              simp only [processChunksWith]
              rw [if_neg hguard]
            rw [hred]
            have h := ih (pushEvent (pushEvent st (StreamEvent.toolCall callId name input))
              (StreamEvent.toolResult callId name (invokeTool name input)))
            simpa using h

/-- Invariants of a full (re-)dispatch: the retry counter is monotone and
bounded by the budget, and the dispatch count grows by at most one more
than the retry counter does. -/
theorem dispatchTurn_bound (maxRetries : Nat) (respond : Nat → List StreamChunk)
    (invokeTool : String → String → String) :
    ∀ (fuel : Nat) (st : OrchestratorState),
      st.retryCount ≤ (dispatchTurn maxRetries respond invokeTool fuel st).retryCount ∧
      (st.retryCount ≤ maxRetries →
        (dispatchTurn maxRetries respond invokeTool fuel st).retryCount ≤ maxRetries) ∧
      (dispatchTurn maxRetries respond invokeTool fuel st).dispatches + st.retryCount ≤
        st.dispatches + (dispatchTurn maxRetries respond invokeTool fuel st).retryCount + 1 := by
  intro fuel
  induction fuel with
  | zero =>
      intro st
      refine ⟨Nat.le_refl _, fun h => h, ?_⟩
      simp [dispatchTurn]
  | succ fuel ih =>
      intro st
      have hb :=
        processChunksWith_bound (dispatchTurn maxRetries respond invokeTool fuel)
          maxRetries invokeTool (fun s => (ih s).1) (fun s => (ih s).2.1)
          (fun s => (ih s).2.2) (respond st.dispatches)
          { st with dispatches := st.dispatches + 1 }
      refine ⟨hb.1, fun hh => hb.2.1 hh, ?_⟩
      have h3 : (dispatchTurn maxRetries respond invokeTool (fuel + 1) st).dispatches +
            st.retryCount ≤
          st.dispatches + 1 +
            (dispatchTurn maxRetries respond invokeTool (fuel + 1) st).retryCount :=
        hb.2.2
      omega

/-- C3: with `maxRetries = 2`, (a) whatever the model streams and whatever
the tools return, the orchestrator performs at most 3 dispatches in total —
i.e. at most 2 re-dispatches of the request — and (b) in the scenario where
every dispatch streams the same single tool call whose result text always
contains the discovery sentinel, exactly 2 re-dispatches happen, the first
two sentinel results are consumed internally, and the third sentinel-bearing
result is forwarded verbatim to the caller's tool-result sink as the final
event of the turn. -/
theorem c3_retry_bound_and_third_sentinel_forwarded :
    (∀ (respond : Nat → List StreamChunk) (invokeTool : String → String → String),
      (executeStreamWithRetry 2 respond invokeTool).dispatches ≤ 3) ∧
    executeStreamWithRetry 2 (fun _ => [StreamChunk.toolCall "call_1" "mytool" "in1"])
        (fun _ _ =>
          "Tool mytool was dynamically discovered and registered. Please retry your request.") =
      { retryCount := 2, dispatches := 3,
        events := [StreamEvent.toolCall "call_1" "mytool" "in1",
          StreamEvent.toolCall "call_1" "mytool" "in1",
          StreamEvent.toolCall "call_1" "mytool" "in1",
          StreamEvent.toolResult "call_1" "mytool"
            "Tool mytool was dynamically discovered and registered. Please retry your request."] } := by
  constructor
  · intro respond invokeTool
    have hb :=
      dispatchTurn_bound 2 respond invokeTool 3
        { retryCount := 0, dispatches := 0, events := [] }
    have h4 : (dispatchTurn 2 respond invokeTool 3
        { retryCount := 0, dispatches := 0, events := [] }).retryCount ≤ 2 :=
      hb.2.1 (by decide)
    have h5 : (dispatchTurn 2 respond invokeTool 3
          { retryCount := 0, dispatches := 0, events := [] }).dispatches + 0 ≤
        0 + (dispatchTurn 2 respond invokeTool 3
          { retryCount := 0, dispatches := 0, events := [] }).retryCount + 1 :=
      hb.2.2
    have h6 : executeStreamWithRetry 2 respond invokeTool =
        dispatchTurn 2 respond invokeTool 3
          { retryCount := 0, dispatches := 0, events := [] } := rfl
    rw [h6]
    omega
  · decide

end ClaudeCopilot
